import Mathlib

/-!
Verification of the p6-craps-py simulation core against its design
specification.  The Python modules are shallowly embedded: pure functions
become Lean functions, mutating methods become explicit state-passing
functions, Python `raise`/`assert` paths become `Option`/`Except` failures,
and machine integers are `Int`/`Nat` (Python integers are unbounded).

The repository holds two divergent snapshots of the core (the spec's design
notes acknowledge this): `engine.py`/`sim.py`/`strategy.py` follow one
design (a local `PassLineOutcome` with a `NONE` no-decision value and a
`PointCycleResult` record), while `game.py`/`stats.py`/`simulate.py`/
`enums.py` follow the other (a shared `PassLineOutcome` with `PUSH` and a
`RollResult` record whose engine is absent from the snapshot).  Both sides
are embedded below, each in its own namespace.
-/

namespace Craps

/-- Table phase enum.  Both `engine.py` and `enums.py` define this enum with
the same two members `COME_OUT` and `POINT_ON`. -/
inductive Phase where
  | COME_OUT
  | POINT_ON
deriving DecidableEq, Repr

namespace Engine

/-- `engine.py` `PassLineOutcome`: pass line result for a single roll.
The no-decision value is named `NONE` in this module (the design spec and
`enums.py` call the same value `PUSH`). -/
inductive PassLineOutcome where
  | NONE
  | WIN
  | LOSS
deriving DecidableEq, Repr

/-- `engine.py` `Roll`: a single dice roll.  This frozen dataclass performs
no validation of its fields (unlike `dice.Roll`). -/
structure Roll where
  d1 : Int
  d2 : Int
deriving DecidableEq, Repr

/-- `engine.py` `Roll.total`: the sum of the dice. -/
def Roll.total (r : Roll) : Int := r.d1 + r.d2

/-- `engine.py` `Roll` construction: the dataclass has no `__post_init__`,
so construction always succeeds, with no range check on the faces. -/
def Roll.make (d1 d2 : Int) : Except String Roll := .ok ⟨d1, d2⟩

/-- `engine.py` `PointCycleResult`: result of applying a roll to the current
point cycle. -/
structure PointCycleResult where
  roll : Roll
  phase_before : Phase
  phase_after : Phase
  point_before : Option Int
  point_after : Option Int
  pass_line_outcome : PassLineOutcome
  completed_point : Bool
deriving DecidableEq, Repr

/-- The mutable state of `engine.py` `CrapsEngine`: phase, active point and
the completed point-cycle counter (`__init__` lines 92-95). -/
structure State where
  phase : Phase
  point : Option Int
  completed_points : Nat
deriving DecidableEq, Repr

/-- `CrapsEngine.__init__` state: come-out phase, no point, zero completed
points. -/
def initState : State := ⟨Phase.COME_OUT, none, 0⟩

/-- `CrapsEngine.apply_roll` (engine.py lines 103-156).  Returns the new
engine state together with the `PointCycleResult`; `none` models the
`assert self.point is not None` failure in the `POINT_ON` branch.  The
branch structure mirrors the source: come-out naturals win, craps lose,
point numbers establish a point; with a point on, hitting the point wins,
a 7 sevens out (both count as a completed point and reset to come-out),
and any other total leaves the state unchanged. -/
def apply_roll (s : State) (roll : Roll) : Option (State × PointCycleResult) :=
  let phase_before := s.phase
  let point_before := s.point
  let total := roll.total
  if s.phase = Phase.COME_OUT then
    if total = 7 ∨ total = 11 then
      -- Remain in come-out, no point established.
      some (s, ⟨roll, phase_before, s.phase, point_before, s.point,
                PassLineOutcome.WIN, false⟩)
    else if total = 2 ∨ total = 3 ∨ total = 12 then
      -- Remain in come-out, no point established.
      some (s, ⟨roll, phase_before, s.phase, point_before, s.point,
                PassLineOutcome.LOSS, false⟩)
    else if total = 4 ∨ total = 5 ∨ total = 6 ∨ total = 8 ∨ total = 9 ∨ total = 10 then
      -- Establish a point and move to point-on phase.
      let s1 : State := { s with phase := Phase.POINT_ON, point := some total }
      some (s1, ⟨roll, phase_before, s1.phase, point_before, s1.point,
                 PassLineOutcome.NONE, false⟩)
    else
      -- No branch taken: state unchanged, outcome stays NONE.
      some (s, ⟨roll, phase_before, s.phase, point_before, s.point,
                PassLineOutcome.NONE, false⟩)
  else
    match s.point with
    | none => none  -- assert: POINT_ON phase requires an active point.
    | some p =>
      if total = p then
        let s1 : State := { phase := Phase.COME_OUT, point := none,
                            completed_points := s.completed_points + 1 }
        some (s1, ⟨roll, phase_before, s1.phase, point_before, s1.point,
                   PassLineOutcome.WIN, true⟩)
      else if total = 7 then
        let s1 : State := { phase := Phase.COME_OUT, point := none,
                            completed_points := s.completed_points + 1 }
        some (s1, ⟨roll, phase_before, s1.phase, point_before, s1.point,
                   PassLineOutcome.LOSS, true⟩)
      else
        -- Any other total leaves the point and phase unchanged.
        some (s, ⟨roll, phase_before, s.phase, point_before, s.point,
                  PassLineOutcome.NONE, false⟩)

end Engine

namespace Dice

/-- `dice.py` `Roll`: immutable dice roll (frozen dataclass). -/
structure Roll where
  d1 : Int
  d2 : Int
deriving DecidableEq, Repr

/-- `dice.py` `Roll` construction including `__post_init__`: each die value
must lie in the standard range 1..6, otherwise a `ValueError` is raised. -/
def Roll.make (d1 d2 : Int) : Except String Roll :=
  if ¬(1 ≤ d1 ∧ d1 ≤ 6) then .error "d1 must be between 1 and 6"
  else if ¬(1 ≤ d2 ∧ d2 ≤ 6) then .error "d2 must be between 1 and 6"
  else .ok ⟨d1, d2⟩

/-- `dice.py` `Roll.total`: the sum of both dice. -/
def Roll.total (r : Roll) : Int := r.d1 + r.d2

end Dice

namespace Models

/-- `models.py` `Bankroll`: player bankroll with optional maximum win
target (frozen dataclass). -/
structure Bankroll where
  balance : Int
  max_win : Option Int
deriving DecidableEq, Repr

/-- `models.py` `Bankroll` construction including `__post_init__`: the
balance must be non-negative and max_win, when provided, positive. -/
def Bankroll.make (balance : Int) (max_win : Option Int) :
    Except String Bankroll :=
  if balance < 0 then .error "Bankroll balance cannot be negative"
  else
    match max_win with
    | some m =>
      if m ≤ 0 then .error "max_win must be positive"
      else .ok ⟨balance, some m⟩
    | none => .ok ⟨balance, none⟩

/-- `models.py` `Bankroll.apply`: return a new bankroll with delta applied,
raising when the new balance would be negative.  The source uses
`dataclasses.replace`, which re-runs `__post_init__`, so the result passes
through `Bankroll.make` again. -/
def Bankroll.apply (b : Bankroll) (delta : Int) : Except String Bankroll :=
  let new_balance := b.balance + delta
  if new_balance < 0 then .error "Bankroll cannot go negative"
  else Bankroll.make new_balance b.max_win

/-- Well-formedness of a bankroll, guaranteed by construction: non-negative
balance and a positive max_win when one is present. -/
def Bankroll.WF (b : Bankroll) : Prop :=
  0 ≤ b.balance ∧ ∀ m : Int, b.max_win = some m → 0 < m

end Models

namespace Engine

/-- Engine states reachable from the fresh engine by applying rolls. -/
inductive Reachable : State → Prop where
  | init : Reachable initState
  | step {s : State} {r : Roll} {s1 : State} {res : PointCycleResult} :
      Reachable s → apply_roll s r = some (s1, res) → Reachable s1

/-- The phase/point invariant of the engine. -/
def Inv (s : State) : Prop := s.phase = Phase.COME_OUT ↔ s.point = none

end Engine

namespace Enums

/-- `enums.py` `PassLineOutcome`: pass line outcome for a roll, with an
explicit `PUSH` no-decision value.  This is the enum used by `game.py`,
`stats.py` and `simulate.py`. -/
inductive PassLineOutcome where
  | WIN
  | LOSS
  | PUSH
deriving DecidableEq, Repr

end Enums

namespace Models

/-- `models.py` `Player`: player identity and bankroll. -/
structure Player where
  name : String
  bankroll : Bankroll
deriving DecidableEq, Repr

/-- `models.py` `Table`: craps table seating for up to nine players. -/
structure Table where
  seats : List (Option Player)
deriving DecidableEq, Repr

end Models

/-- Modelled from the spec: the per-roll RuleTransition record (roll,
phase-before, phase-after, point-before, point-after, outcome).  The
`RollResult` class that `game.py` and `stats.py` import from
`p6_craps.engine` is absent from the source snapshot (the `engine.py`
present holds the other design); its fields are those the spec lists and
the callers read. -/
structure RollResult where
  roll : Dice.Roll
  phase_before : Phase
  phase_after : Phase
  point_before : Option Int
  point_after : Option Int
  pass_line_outcome : Enums.PassLineOutcome
deriving DecidableEq, Repr

namespace Game

/-- `game.py` `GameStopReason`: reasons that a game can terminate. -/
inductive GameStopReason where
  | TARGET_POINTS_REACHED
  | MAX_ROLLS_REACHED
  | NO_BANKROLL_REMAINING
  | ALL_MAX_WIN_REACHED
  | ONLY_NON_SHOOTER_LEFT
deriving DecidableEq, Repr

/-- `game.py` `GameConfig`: configuration for stopping conditions. -/
structure GameConfig where
  target_points : Option Int
  max_rolls : Option Int
deriving DecidableEq, Repr

/-- `game.py` `PlayerState`: player runtime state for a game. -/
structure PlayerState where
  player : Models.Player
  can_shoot : Bool
deriving DecidableEq, Repr

/-- `game.py` `PlayerState.has_bankroll`: the player can keep wagering. -/
def PlayerState.has_bankroll (st : PlayerState) : Bool :=
  decide (0 < st.player.bankroll.balance)

/-- `game.py` `PlayerState.reached_max_win`: max_win is set and the balance
has reached it. -/
def PlayerState.reached_max_win (st : PlayerState) : Bool :=
  match st.player.bankroll.max_win with
  | some m => decide (m ≤ st.player.bankroll.balance)
  | none => false

/-- The `Game` object fields that the stop check and shooter rotation read:
the nine seat states, the stop configuration, the engine's completed point
counter and the roll counter. -/
structure Game where
  player_states : List (Option PlayerState)
  config : GameConfig
  completed_points : Nat
  roll_count : Nat
deriving DecidableEq, Repr

/-- `Game._players_with_bankroll`: seated players who still have money. -/
def Game.players_with_bankroll (g : Game) : List PlayerState :=
  (g.player_states.filterMap id).filter (fun st => st.has_bankroll)

/-- `Game._eligible_players`: seated players who can keep wagering and have
not hit max win. -/
def Game.eligible_players (g : Game) : List PlayerState :=
  (g.player_states.filterMap id).filter
    (fun st => st.has_bankroll && !st.reached_max_win)

/-- `Game._all_max_win_reached`: all players with bankroll have a max_win
set and have reached it (false when nobody has bankroll). -/
def Game.all_max_win_reached (g : Game) : Bool :=
  let pwb := g.players_with_bankroll
  if pwb.isEmpty then false
  else pwb.all (fun st => st.player.bankroll.max_win.isSome && st.reached_max_win)

/-- `Game._only_non_shooter_left`: exactly one eligible player remains and
that player cannot shoot. -/
def Game.only_non_shooter_left (g : Game) : Bool :=
  match g.eligible_players with
  | [st] => !st.can_shoot
  | _ => false

/-- The first stop condition of `Game.check_stop`: a target is configured
and the completed point count has reached it. -/
def Game.target_points_reached (g : Game) : Bool :=
  match g.config.target_points with
  | some t => decide (t ≤ (g.completed_points : Int))
  | none => false

/-- The second stop condition of `Game.check_stop`: a max-roll cap is
configured and the roll count has reached it. -/
def Game.max_rolls_reached (g : Game) : Bool :=
  match g.config.max_rolls with
  | some m => decide (m ≤ (g.roll_count : Int))
  | none => false

/-- `Game.check_stop` (game.py lines 181-193): the stop conditions exactly
in source order — target points, then max rolls, then no bankroll
remaining, then all at max win, then only a non-shooter left. -/
def Game.check_stop (g : Game) : Option GameStopReason :=
  if g.target_points_reached then some GameStopReason.TARGET_POINTS_REACHED
  else if g.max_rolls_reached then some GameStopReason.MAX_ROLLS_REACHED
  else if g.players_with_bankroll.isEmpty then
    some GameStopReason.NO_BANKROLL_REMAINING
  else if g.all_max_win_reached then some GameStopReason.ALL_MAX_WIN_REACHED
  else if g.only_non_shooter_left then some GameStopReason.ONLY_NON_SHOOTER_LEFT
  else none

/-- Evaluate an ordered list of condition/reason pairs top to bottom and
return the first reason whose condition holds.  This is the spec's own
description of the stop check (an explicit ordered list of
predicate-to-reason pairs, first match wins), used to compare against
`Game.check_stop`. -/
def first_reason : List (Bool × GameStopReason) → Option GameStopReason
  | [] => none
  | (c, reason) :: rest => if c then some reason else first_reason rest

/-- Shooter eligibility of a seat, as tested by `Game._first_shooter_index`
and `Game._next_shooter_index`: seat occupied, has bankroll, can shoot, and
has not reached max win. -/
def eligible_seat (states : List (Option PlayerState)) (i : Nat) : Bool :=
  match states.get? i with
  | some (some st) => st.has_bankroll && st.can_shoot && !st.reached_max_win
  | _ => false

/-- `Game._first_shooter_index`: index of the first eligible shooter;
`none` models the `ValueError` raised when no eligible shooter exists. -/
def first_shooter_index (states : List (Option PlayerState)) : Option Nat :=
  (List.range states.length).find? (fun i => eligible_seat states i)

/-- `Game._next_shooter_index`: scan offsets 1..9 from the current seat,
wrapping modulo 9, and return the first eligible seat; `none` models the
`ValueError` raised when no seat qualifies. -/
def next_shooter_index (states : List (Option PlayerState)) (current : Nat) :
    Option Nat :=
  ((List.range' 1 9).find?
      (fun off => eligible_seat states ((current + off) % 9))).map
    (fun off => (current + off) % 9)

/-- `Game._should_rotate_shooter`: rotate the shooter exactly on a
seven-out (phase_before POINT_ON, total 7, pass-line LOSS). -/
def should_rotate_shooter (rr : RollResult) : Bool :=
  decide (rr.phase_before = Phase.POINT_ON) &&
    decide (rr.roll.total = 7) &&
    decide (rr.pass_line_outcome = Enums.PassLineOutcome.LOSS)

/-- The shooter update performed by `Game.step` (game.py lines 163-164):
rotate via `_next_shooter_index` when `_should_rotate_shooter` fires,
otherwise keep the current shooter. -/
def step_shooter (states : List (Option PlayerState)) (current : Nat)
    (rr : RollResult) : Option Nat :=
  if should_rotate_shooter rr then next_shooter_index states current
  else some current

end Game

namespace Sim

/-- The slice of `players.py` `PlayerState` that the shooter selection and
rotation logic of `sim.py` reads: the `can_be_shooter` flag (delegated to
the player's configuration). -/
structure SimPlayer where
  can_be_shooter : Bool
deriving DecidableEq, Repr

/-- `Simulation._select_initial_shooter` (sim.py lines 95-100): the index
of the first player allowed to shoot, falling back to index 0 when no
player is (the loop returns 0 without raising). -/
def select_initial_shooter (players : List SimPlayer) : Nat :=
  (players.findIdx? (fun p => p.can_be_shooter)).getD 0

/-- The index arithmetic of `Simulation._advance_shooter` (sim.py lines
102-115): scan offsets 1..num_players from the current index, wrapping
modulo num_players, and move to the first player who can shoot; when none
qualifies the loop ends without a break and the index stays unchanged. -/
def advance_shooter_index (players : List SimPlayer) (current : Nat) : Nat :=
  match (List.range' 1 players.length).find?
      (fun off =>
        match players.get? ((current + off) % players.length) with
        | some p => p.can_be_shooter
        | none => false) with
  | some off => (current + off) % players.length
  | none => current

/-- The rotation trigger of `Simulation.run` (sim.py lines 246-249): the
shooter is advanced exactly when the point cycle result reports a
completed point — which holds for both a made point and a seven-out. -/
def should_rotate (pc : Engine.PointCycleResult) : Bool :=
  pc.completed_point

end Sim

namespace Stats

/-- Increment the count stored under one key of a counting table.  The
Python side uses dicts pre-keyed with the legal totals (2..12), pips (1..6)
or point numbers; validated rolls only ever touch those keys, and the
tables are modelled as total functions. -/
def bump (f : Int → Nat) (k : Int) : Int → Nat :=
  fun x => if x = k then f x + 1 else f x

/-- `stats.py` `OutcomeCounts`: counts for pass line outcomes. -/
structure OutcomeCounts where
  win : Nat
  loss : Nat
  push : Nat
deriving DecidableEq, Repr

/-- `OutcomeCounts.record`: WIN bumps win, LOSS bumps loss, anything else
bumps push. -/
def OutcomeCounts.record (c : OutcomeCounts) (outcome : Enums.PassLineOutcome) :
    OutcomeCounts :=
  match outcome with
  | Enums.PassLineOutcome.WIN => { c with win := c.win + 1 }
  | Enums.PassLineOutcome.LOSS => { c with loss := c.loss + 1 }
  | Enums.PassLineOutcome.PUSH => { c with push := c.push + 1 }

/-- `stats.py` `RollCounts`: histograms of roll totals and per-die pips. -/
structure RollCounts where
  totals : Int → Nat
  die_one : Int → Nat
  die_two : Int → Nat

/-- `RollCounts.record`: bump the total histogram and both pip
histograms. -/
def RollCounts.record (c : RollCounts) (roll : Dice.Roll) : RollCounts :=
  { totals := bump c.totals roll.total,
    die_one := bump c.die_one roll.d1,
    die_two := bump c.die_two roll.d2 }

/-- `stats.py` `POINT_NUMBERS`. -/
def POINT_NUMBERS : List Int := [4, 5, 6, 8, 9, 10]

/-- `stats.py` `PointCounts`: counts for points established and made,
keyed by the point numbers. -/
structure PointCounts where
  established : Int → Nat
  made : Int → Nat

/-- `PointCounts.record_established`: bump the established histogram when
the key is a point number (the dict membership test in the source). -/
def PointCounts.record_established (c : PointCounts) (point : Int) :
    PointCounts :=
  if point ∈ POINT_NUMBERS then
    { c with established := bump c.established point }
  else c

/-- `PointCounts.record_made`: bump the made histogram when the key is a
point number. -/
def PointCounts.record_made (c : PointCounts) (point : Int) : PointCounts :=
  if point ∈ POINT_NUMBERS then
    { c with made := bump c.made point }
  else c

/-- `stats.py` `StatsCounters`: aggregate stats for one scope of play. -/
structure StatsCounters where
  rolls : Nat
  outcomes : OutcomeCounts
  roll_counts : RollCounts
  point_counts : PointCounts

/-- A fresh `StatsCounters()` with all counts zero. -/
def StatsCounters.init : StatsCounters :=
  ⟨0, ⟨0, 0, 0⟩, ⟨fun _ => 0, fun _ => 0, fun _ => 0⟩,
   ⟨fun _ => 0, fun _ => 0⟩⟩

/-- `StatsCounters.record` (stats.py lines 92-104): always bump the roll
count, the outcome count and the roll histograms; record a point
established when the roll came out with a PUSH (keyed by point_after) and a
point made when a point-on roll was a WIN (keyed by point_before). -/
def StatsCounters.record (c : StatsCounters) (rr : RollResult) : StatsCounters :=
  let c1 : StatsCounters :=
    { c with rolls := c.rolls + 1,
             outcomes := c.outcomes.record rr.pass_line_outcome,
             roll_counts := c.roll_counts.record rr.roll }
  let c2 : StatsCounters :=
    if rr.phase_before = Phase.COME_OUT ∧
        rr.pass_line_outcome = Enums.PassLineOutcome.PUSH then
      match rr.point_after with
      | some p => { c1 with point_counts := c1.point_counts.record_established p }
      | none => c1
    else c1
  if rr.phase_before = Phase.POINT_ON ∧
      rr.pass_line_outcome = Enums.PassLineOutcome.WIN then
    match rr.point_before with
    | some p => { c2 with point_counts := c2.point_counts.record_made p }
    | none => c2
  else c2

/-- The counter tables held by `stats.py` `TableStatsCollector`. -/
structure TableStats where
  overall : StatsCounters
  come_out : StatsCounters
  point_on : StatsCounters
  per_shooter : Nat → Option StatsCounters
  per_player : Nat → Option StatsCounters
  end_reason : Option Game.GameStopReason
  roll_count : Nat
  points_made : Nat

/-- The per-scope dict update of `record_roll`: create the scope's counters
on first use, then record into them (the `not in` check plus `record` in
the source). -/
def bump_scope (m : Nat → Option StatsCounters) (i : Nat) (rr : RollResult) :
    Nat → Option StatsCounters :=
  fun j => if j = i then some (((m i).getD StatsCounters.init).record rr)
           else m j

/-- `TableStatsCollector.record_roll` (stats.py lines 143-162): raise when
the shooter seat is empty (or out of range), otherwise store the roll
count, record into the overall scope, into exactly one of the come-out or
point-on scopes selected by phase_before, and into the shooter's
per-shooter and per-player scopes. -/
def TableStats.record_roll (t : TableStats) (rr : RollResult)
    (shooter_index : Nat) (roll_count : Nat) (table : Models.Table) :
    Option TableStats :=
  match table.seats.get? shooter_index with
  | some (some _) =>
    some { t with
      roll_count := roll_count,
      overall := t.overall.record rr,
      come_out := if rr.phase_before = Phase.COME_OUT then t.come_out.record rr
                  else t.come_out,
      point_on := if rr.phase_before = Phase.COME_OUT then t.point_on
                  else t.point_on.record rr,
      per_shooter := bump_scope t.per_shooter shooter_index rr,
      per_player := bump_scope t.per_player shooter_index rr }
  | _ => none

end Stats

namespace Simulate

/-- Modelled from the spec: the `BettingState` record that `strategy.py`
should define (the module present in the snapshot holds the other
design).  Its fields are the ones the spec lists for memory-bearing
strategies and the ones `simulate.py` constructs: bankroll, base_bet,
max_bet, consecutive_wins, consecutive_losses, last_outcome. -/
structure BettingState where
  bankroll : Int
  base_bet : Int
  max_bet : Option Int
  consecutive_wins : Nat
  consecutive_losses : Nat
  last_outcome : Option Enums.PassLineOutcome
deriving DecidableEq, Repr

/-- `simulate.py` `_update_betting_state` (lines 254-273): a WIN extends
the win streak and clears the loss streak; anything else clears the win
streak and extends the loss streak; bankroll and limits are carried over
and the outcome is remembered. -/
def update_betting_state (state : BettingState) (bankroll : Int)
    (outcome : Enums.PassLineOutcome) : BettingState :=
  if outcome = Enums.PassLineOutcome.WIN then
    { bankroll := bankroll, base_bet := state.base_bet,
      max_bet := state.max_bet,
      consecutive_wins := state.consecutive_wins + 1,
      consecutive_losses := 0, last_outcome := some outcome }
  else
    { bankroll := bankroll, base_bet := state.base_bet,
      max_bet := state.max_bet, consecutive_wins := 0,
      consecutive_losses := state.consecutive_losses + 1,
      last_outcome := some outcome }

/-- `simulate.py` `_cap_bet` (lines 247-251): non-positive requests or an
empty bankroll place nothing; otherwise the wager is capped to the
available bankroll. -/
def cap_bet (amount bankroll : Int) : Int :=
  if amount ≤ 0 ∨ bankroll ≤ 0 then 0
  else min amount bankroll

/-- Modelled from the spec: `MartingaleStrategy.next_bet` — the class is
imported by `simulate.py` from `strategy.py` but absent from the snapshot.
Per the spec it wagers base_bet times 2 to the consecutive-loss count,
capped at max_bet (the bankroll cap is enforced by the caller through
`_cap_bet`). -/
def martingale_next_bet (state : BettingState) : Int :=
  let raw := state.base_bet * 2 ^ state.consecutive_losses
  match state.max_bet with
  | some m => min raw m
  | none => raw

end Simulate

namespace Engine

lemma inv_initState : Inv initState := by
  constructor <;> intro _ <;> rfl

lemma apply_roll_completed_spec {s : State} {r : Roll} {s1 : State}
    {res : PointCycleResult} (h : apply_roll s r = some (s1, res)) :
    s1.completed_points =
      (if s.phase = Phase.POINT_ON ∧ (s.point = some r.total ∨ r.total = 7)
       then s.completed_points + 1 else s.completed_points) ∧
    (res.completed_point = true ↔
      (s.phase = Phase.POINT_ON ∧
        (s.point = some r.total ∨ r.total = 7))) := by
  unfold apply_roll at h
  by_cases hc : s.phase = Phase.COME_OUT
  · have hnp : ¬(s.phase = Phase.POINT_ON ∧
        (s.point = some r.total ∨ r.total = 7)) := by
      rintro ⟨hp, _⟩; rw [hc] at hp; exact Phase.noConfusion hp
    simp only [hc, if_pos rfl] at h
    split_ifs at h <;>
      (injection h with h1; injection h1 with h2 h3; subst h2; subst h3) <;>
      simp [hnp]
  · simp only [if_neg hc] at h
    have hpo : s.phase = Phase.POINT_ON := by
      cases hph : s.phase
      · exact absurd hph hc
      · rfl
    rcases hp : s.point with _ | p
    · rw [hp] at h; exact absurd h (by simp)
    · rw [hp] at h
      dsimp only at h
      split_ifs at h with ht1 ht2 <;>
        (injection h with h1; injection h1 with h2 h3; subst h2; subst h3)
      · subst ht1
        simp [hpo, hp]
      · simp [hpo, hp, ht2]
      · have ht1s : ¬ p = r.total := fun hh => ht1 hh.symm
        simp [hpo, hp, ht1s, ht2]

lemma apply_roll_inv {s : State} {r : Roll} {s1 : State} {res : PointCycleResult}
    (hs : Inv s) (h : apply_roll s r = some (s1, res)) : Inv s1 := by
  unfold apply_roll at h
  by_cases hc : s.phase = Phase.COME_OUT
  · have hpt : s.point = none := hs.mp hc
    simp only [hc, if_pos rfl] at h
    split_ifs at h <;>
      (injection h with h1; injection h1 with h2 _; subst h2) <;>
      simp [Inv, hc, hpt]
  · simp only [if_neg hc] at h
    rcases hp : s.point with _ | p
    · rw [hp] at h; exact absurd h (by simp)
    · rw [hp] at h
      dsimp only at h
      split_ifs at h <;>
        (injection h with h1; injection h1 with h2 _; subst h2) <;>
        simp [Inv, hc, hp]

end Engine

end Craps

/-- Claim C1: apply_roll follows the pass-line state machine.  In COME_OUT
(with the invariant forcing point = none): total 7 or 11 is a WIN keeping
phase and point; 2, 3 or 12 is a LOSS keeping phase and point; a point
number moves to POINT_ON with the point set, with the no-decision outcome
(named NONE in engine.py, PUSH in the spec and enums.py).  In POINT_ON with
point p set: total p is a WIN resetting to come-out, total 7 is a LOSS with
the same reset, and any other total is a no-decision leaving phase and
point unchanged. -/
theorem apply_roll_pass_line_state_machine (s : Craps.Engine.State)
    (r : Craps.Engine.Roll)
    (hinv : s.phase = Craps.Phase.COME_OUT ↔ s.point = none)
    (h2 : 2 ≤ r.total) (h12 : r.total ≤ 12) :
    (s.phase = Craps.Phase.COME_OUT →
      ((r.total = 7 ∨ r.total = 11) →
        Craps.Engine.apply_roll s r = some (s,
          ⟨r, Craps.Phase.COME_OUT, Craps.Phase.COME_OUT, none, none,
           Craps.Engine.PassLineOutcome.WIN, false⟩)) ∧
      ((r.total = 2 ∨ r.total = 3 ∨ r.total = 12) →
        Craps.Engine.apply_roll s r = some (s,
          ⟨r, Craps.Phase.COME_OUT, Craps.Phase.COME_OUT, none, none,
           Craps.Engine.PassLineOutcome.LOSS, false⟩)) ∧
      ((r.total = 4 ∨ r.total = 5 ∨ r.total = 6 ∨ r.total = 8 ∨
            r.total = 9 ∨ r.total = 10) →
        Craps.Engine.apply_roll s r = some
          ({ phase := Craps.Phase.POINT_ON, point := some r.total,
             completed_points := s.completed_points },
           ⟨r, Craps.Phase.COME_OUT, Craps.Phase.POINT_ON, none, some r.total,
            Craps.Engine.PassLineOutcome.NONE, false⟩))) ∧
    (∀ p : Int, s.phase = Craps.Phase.POINT_ON → s.point = some p →
      (p = 4 ∨ p = 5 ∨ p = 6 ∨ p = 8 ∨ p = 9 ∨ p = 10) →
      ((r.total = p →
        Craps.Engine.apply_roll s r = some
          ({ phase := Craps.Phase.COME_OUT, point := none,
             completed_points := s.completed_points + 1 },
           ⟨r, Craps.Phase.POINT_ON, Craps.Phase.COME_OUT, some p, none,
            Craps.Engine.PassLineOutcome.WIN, true⟩)) ∧
      (r.total = 7 →
        Craps.Engine.apply_roll s r = some
          ({ phase := Craps.Phase.COME_OUT, point := none,
             completed_points := s.completed_points + 1 },
           ⟨r, Craps.Phase.POINT_ON, Craps.Phase.COME_OUT, some p, none,
            Craps.Engine.PassLineOutcome.LOSS, true⟩)) ∧
      (r.total ≠ p → r.total ≠ 7 →
        Craps.Engine.apply_roll s r = some (s,
          ⟨r, Craps.Phase.POINT_ON, Craps.Phase.POINT_ON, some p, some p,
           Craps.Engine.PassLineOutcome.NONE, false⟩)))) := by
  constructor
  · intro hco
    have hpt : s.point = none := hinv.mp hco
    refine ⟨?_, ?_, ?_⟩
    · intro hts
      simp only [Craps.Engine.apply_roll, if_pos hco, if_pos hts]
      rw [hco, hpt]
    · intro hts
      have h1 : ¬(r.total = 7 ∨ r.total = 11) := by omega
      simp only [Craps.Engine.apply_roll, if_pos hco, if_neg h1, if_pos hts]
      rw [hco, hpt]
    · intro hts
      have h1 : ¬(r.total = 7 ∨ r.total = 11) := by omega
      have h2 : ¬(r.total = 2 ∨ r.total = 3 ∨ r.total = 12) := by omega
      simp only [Craps.Engine.apply_roll, if_pos hco, if_neg h1, if_neg h2,
        if_pos hts]
      rw [hco, hpt]
  · intro p hpo hpt hpval
    have hnc : ¬ s.phase = Craps.Phase.COME_OUT := by
      rw [hpo]; intro hh; exact Craps.Phase.noConfusion hh
    refine ⟨?_, ?_, ?_⟩
    · intro ht
      simp only [Craps.Engine.apply_roll, if_neg hnc]
      rw [hpt]
      dsimp only
      rw [if_pos ht, hpo]
    · intro ht
      have hne : ¬ r.total = p := by omega
      simp only [Craps.Engine.apply_roll, if_neg hnc]
      rw [hpt]
      dsimp only
      rw [if_neg hne, if_pos ht, hpo]
    · intro hne hne7
      simp only [Craps.Engine.apply_roll, if_neg hnc]
      rw [hpt]
      dsimp only
      rw [if_neg hne, if_neg hne7, hpo]

/-- Witness for C1: a come-out natural 7 on the fresh engine wins and keeps
the come-out state. -/
theorem apply_roll_pass_line_state_machine_witness :
    Craps.Engine.apply_roll Craps.Engine.initState ⟨3, 4⟩ =
      some (Craps.Engine.initState,
        ⟨⟨3, 4⟩, Craps.Phase.COME_OUT, Craps.Phase.COME_OUT, none, none,
         Craps.Engine.PassLineOutcome.WIN, false⟩) :=
  ((apply_roll_pass_line_state_machine Craps.Engine.initState ⟨3, 4⟩
    (by constructor <;> intro _ <;> rfl) (by decide) (by decide)).1
    rfl).1 (by decide)

/-- Claim C2 counterexample: starting from the reachable state with the
point 4 on and zero completed points, a seven-out roll (3,4) — phase_before
POINT_ON, total 7, outcome LOSS — increments completed_points from 0 to 1,
although the claim says the counter never increases on a seven-out. -/
theorem completed_points_seven_out_counterexample :
    Craps.Engine.Reachable ⟨Craps.Phase.POINT_ON, some 4, 0⟩ ∧
    Craps.Engine.apply_roll ⟨Craps.Phase.POINT_ON, some 4, 0⟩ ⟨3, 4⟩ =
      some (⟨Craps.Phase.COME_OUT, none, 1⟩,
        ⟨⟨3, 4⟩, Craps.Phase.POINT_ON, Craps.Phase.COME_OUT, some 4, none,
         Craps.Engine.PassLineOutcome.LOSS, true⟩) :=
  ⟨@Craps.Engine.Reachable.step Craps.Engine.initState ⟨2, 2⟩
      ⟨Craps.Phase.POINT_ON, some 4, 0⟩
      ⟨⟨2, 2⟩, Craps.Phase.COME_OUT, Craps.Phase.POINT_ON, none, some 4,
       Craps.Engine.PassLineOutcome.NONE, false⟩
      Craps.Engine.Reachable.init (by decide),
   by decide⟩

/-- Claim C2 (amended): completed_points increases by exactly 1 on every
transition that ends a point cycle — a point made (POINT_ON, total equal to
the point, WIN) or a seven-out (POINT_ON, total 7, LOSS) — and never on a
come-out decision; no transition increases it more than once. -/
theorem apply_roll_completed_points_increment (s : Craps.Engine.State)
    (r : Craps.Engine.Roll) (s1 : Craps.Engine.State)
    (res : Craps.Engine.PointCycleResult)
    (h : Craps.Engine.apply_roll s r = some (s1, res)) :
    s1.completed_points =
      (if s.phase = Craps.Phase.POINT_ON ∧
          (s.point = some r.total ∨ r.total = 7)
       then s.completed_points + 1 else s.completed_points) ∧
    (res.completed_point = true ↔
      (s.phase = Craps.Phase.POINT_ON ∧
        (s.point = some r.total ∨ r.total = 7))) :=
  Craps.Engine.apply_roll_completed_spec h

/-- Witness for C2 (amended): a concrete seven-out from point 4 increments
the counter by one. -/
theorem apply_roll_completed_points_increment_witness :
    (⟨Craps.Phase.COME_OUT, none, 1⟩ : Craps.Engine.State).completed_points =
      (if (⟨Craps.Phase.POINT_ON, some 4, 0⟩ :
              Craps.Engine.State).phase = Craps.Phase.POINT_ON ∧
          ((⟨Craps.Phase.POINT_ON, some 4, 0⟩ :
              Craps.Engine.State).point =
                some ((⟨3, 4⟩ : Craps.Engine.Roll).total) ∨
            (⟨3, 4⟩ : Craps.Engine.Roll).total = 7)
       then (⟨Craps.Phase.POINT_ON, some 4, 0⟩ :
              Craps.Engine.State).completed_points + 1
       else (⟨Craps.Phase.POINT_ON, some 4, 0⟩ :
              Craps.Engine.State).completed_points) ∧
    ((⟨⟨3, 4⟩, Craps.Phase.POINT_ON, Craps.Phase.COME_OUT, some 4, none,
       Craps.Engine.PassLineOutcome.LOSS, true⟩ :
        Craps.Engine.PointCycleResult).completed_point = true ↔
      ((⟨Craps.Phase.POINT_ON, some 4, 0⟩ :
          Craps.Engine.State).phase = Craps.Phase.POINT_ON ∧
        ((⟨Craps.Phase.POINT_ON, some 4, 0⟩ :
            Craps.Engine.State).point =
              some ((⟨3, 4⟩ : Craps.Engine.Roll).total) ∨
          (⟨3, 4⟩ : Craps.Engine.Roll).total = 7))) :=
  apply_roll_completed_points_increment ⟨Craps.Phase.POINT_ON, some 4, 0⟩
    ⟨3, 4⟩ ⟨Craps.Phase.COME_OUT, none, 1⟩
    ⟨⟨3, 4⟩, Craps.Phase.POINT_ON, Craps.Phase.COME_OUT, some 4, none,
     Craps.Engine.PassLineOutcome.LOSS, true⟩ (by decide)

/-- Claim C3: every engine state reachable from the initial state by
apply_roll calls satisfies the invariant that the phase is COME_OUT exactly
when the point is None; the initial state satisfies it and every transition
preserves it. -/
theorem engine_reachable_phase_point_invariant (s : Craps.Engine.State)
    (h : Craps.Engine.Reachable s) :
    s.phase = Craps.Phase.COME_OUT ↔ s.point = none := by
  induction h with
  | init => exact Craps.Engine.inv_initState
  | step _ happly ih => exact Craps.Engine.apply_roll_inv ih happly

/-- Witness for C3: the invariant instantiated at the initial state. -/
theorem engine_reachable_phase_point_invariant_witness :
    Craps.Engine.initState.phase = Craps.Phase.COME_OUT ↔
      Craps.Engine.initState.point = none :=
  engine_reachable_phase_point_invariant Craps.Engine.initState
    Craps.Engine.Reachable.init

/-- Claim C8 counterexample: the `Roll` dataclass defined inside `engine.py`
has no `__post_init__`, so constructing it with a die face of 0 — outside
the range 1..6 — succeeds without raising, contrary to the claim that every
Roll construction with an out-of-range face raises an error. -/
theorem roll_validation_counterexample :
    Craps.Engine.Roll.make 0 5 = .ok ⟨0, 5⟩ := rfl

/-- Claim C8 (amended): constructing a `dice.Roll` raises an error if and
only if either die face is outside 1..6, and a successful construction
stores the faces unchanged with total d1 + d2; the separate legacy `Roll`
defined inside `engine.py` performs no validation and always constructs.
Both classes are frozen dataclasses (immutable once created). -/
theorem roll_construction_validation :
    (∀ d1 d2 : Int, (∃ r, Craps.Dice.Roll.make d1 d2 = .ok r) ↔
      (1 ≤ d1 ∧ d1 ≤ 6 ∧ 1 ≤ d2 ∧ d2 ≤ 6)) ∧
    (∀ d1 d2 : Int, ∀ r : Craps.Dice.Roll,
      Craps.Dice.Roll.make d1 d2 = .ok r →
      r.d1 = d1 ∧ r.d2 = d2 ∧ r.total = d1 + d2) ∧
    (∀ d1 d2 : Int, Craps.Engine.Roll.make d1 d2 = .ok ⟨d1, d2⟩) := by
  refine ⟨fun d1 d2 => ?_, fun d1 d2 r h => ?_, fun d1 d2 => rfl⟩
  · unfold Craps.Dice.Roll.make
    split_ifs with h1 h2 <;>
      constructor <;>
        first
          | (rintro ⟨r, hr⟩
             first
               | exact hr.elim
               | omega)
          | (intro hb
             first
               | exact ⟨⟨d1, d2⟩, rfl⟩
               | exact (show False by omega).elim)
  · unfold Craps.Dice.Roll.make at h
    split_ifs at h
    injection h with h1
    subst h1
    exact ⟨rfl, rfl, rfl⟩

/-- Witness for C8 (amended): the faces (3,4) are accepted and total 7. -/
theorem roll_construction_validation_witness :
    ((∃ r, Craps.Dice.Roll.make 3 4 = .ok r) ↔
      (1 ≤ (3 : Int) ∧ (3 : Int) ≤ 6 ∧ 1 ≤ (4 : Int) ∧ (4 : Int) ≤ 6)) ∧
    ((⟨3, 4⟩ : Craps.Dice.Roll).total = 3 + 4) :=
  ⟨roll_construction_validation.1 3 4,
   (roll_construction_validation.2.1 3 4 ⟨3, 4⟩ rfl).2.2⟩

/-- Claim C10: constructing a Bankroll with a negative balance raises; for
a well-formed bankroll, apply returns a new Bankroll with the delta added
and max_win preserved when the new balance is non-negative, and raises when
it would be negative.  The dataclass is frozen, so the original value is
unchanged in both cases (the embedding is pure). -/
theorem bankroll_construction_and_apply (b : Craps.Models.Bankroll)
    (hwf : b.WF) (delta : Int) :
    (∀ bal : Int, ∀ mw : Option Int, bal < 0 →
       ∃ e, Craps.Models.Bankroll.make bal mw = .error e) ∧
    (0 ≤ b.balance + delta →
       b.apply delta = .ok ⟨b.balance + delta, b.max_win⟩) ∧
    (b.balance + delta < 0 → ∃ e, b.apply delta = .error e) := by
  refine ⟨fun bal mw hneg => ?_, fun hge => ?_, fun hlt => ?_⟩
  · unfold Craps.Models.Bankroll.make
    rw [if_pos hneg]
    exact ⟨_, rfl⟩
  · have hnl : ¬ (b.balance + delta < 0) := not_lt.mpr hge
    unfold Craps.Models.Bankroll.apply
    dsimp only
    rw [if_neg hnl]
    unfold Craps.Models.Bankroll.make
    rw [if_neg hnl]
    rcases hmw : b.max_win with _ | m
    · rfl
    · have hpos : 0 < m := hwf.2 m hmw
      dsimp only
      rw [if_neg (by omega : ¬ m ≤ 0)]
  · unfold Craps.Models.Bankroll.apply
    rw [if_pos hlt]
    exact ⟨_, rfl⟩

/-- Witness for C10: a bankroll of 100 with max_win 500 debited by 30. -/
theorem bankroll_construction_and_apply_witness :
    (∀ bal : Int, ∀ mw : Option Int, bal < 0 →
       ∃ e, Craps.Models.Bankroll.make bal mw = .error e) ∧
    (0 ≤ (100 : Int) + -30 →
       Craps.Models.Bankroll.apply ⟨100, some 500⟩ (-30) =
         .ok ⟨100 + -30, some 500⟩) ∧
    ((100 : Int) + -30 < 0 →
       ∃ e, Craps.Models.Bankroll.apply ⟨100, some 500⟩ (-30) = .error e) :=
  bankroll_construction_and_apply ⟨100, some 500⟩
    ⟨by norm_num, fun m hm => by injection hm with hm; omega⟩ (-30)

lemma list_find?_some_spec {α : Type} (p : α → Bool) :
    ∀ (l : List α) (a : α), l.find? p = some a →
      ∃ k, l.get? k = some a ∧ p a = true ∧
        ∀ j b, j < k → l.get? j = some b → p b = false := by
  intro l
  induction l with
  | nil => intro a h; exact absurd h (by simp)
  | cons x xs ih =>
    intro a h
    by_cases hx : p x = true
    · rw [List.find?_cons_of_pos _ hx] at h
      injection h with h
      subst h
      exact ⟨0, rfl, hx, fun j b hj _ => absurd hj (Nat.not_lt_zero j)⟩
    · rw [List.find?_cons_of_neg _ (by simpa using hx)] at h
      obtain ⟨k, hk, hpa, hmin⟩ := ih a h
      refine ⟨k + 1, by simpa using hk, hpa, ?_⟩
      intro j b hj hjb
      cases j with
      | zero =>
        rw [List.get?_cons_zero] at hjb
        injection hjb with hh
        subst hh
        simp at hx
        exact hx
      | succ j =>
        rw [List.get?_cons_succ] at hjb
        exact hmin j b (by omega) hjb

lemma list_findIdx?_some_spec {α : Type} (p : α → Bool) :
    ∀ (l : List α) (i : Nat), l.findIdx? p = some i →
      (∃ a, l.get? i = some a ∧ p a = true) ∧
      ∀ j b, j < i → l.get? j = some b → p b = false := by
  intro l
  induction l with
  | nil => intro i h; exact absurd h (by simp)
  | cons x xs ih =>
    intro i h
    rw [List.findIdx?_cons] at h
    by_cases hx : p x = true
    · rw [if_pos hx] at h
      injection h with h
      subst h
      exact ⟨⟨x, rfl, hx⟩, fun j b hj _ => absurd hj (Nat.not_lt_zero j)⟩
    · rw [if_neg hx, List.findIdx?_succ] at h
      rcases hsub : xs.findIdx? p with _ | k
      · rw [hsub] at h; exact absurd h (by simp)
      · rw [hsub] at h
        have hik : i = k + 1 := by simpa using h.symm
        subst hik
        obtain ⟨⟨a, ha, hpa⟩, hmin⟩ := ih k hsub
        refine ⟨⟨a, by simpa using ha, hpa⟩, ?_⟩
        intro j b hj hjb
        cases j with
        | zero =>
          rw [List.get?_cons_zero] at hjb
          injection hjb with hh
          subst hh
          simp at hx
          exact hx
        | succ j =>
          rw [List.get?_cons_succ] at hjb
          exact hmin j b (by omega) hjb

lemma range_find?_some_spec (p : Nat → Bool) (n i : Nat)
    (h : (List.range n).find? p = some i) :
    i < n ∧ p i = true ∧ ∀ j, j < i → p j = false := by
  obtain ⟨k, hk, hpa, hmin⟩ := list_find?_some_spec p _ _ h
  have hkn : k < n := by
    by_contra hge
    rw [List.get?_eq_none.mpr (by simpa using hge)] at hk
    exact Option.noConfusion hk
  have hik : i = k := by
    rw [List.get?_range hkn] at hk
    injection hk with hh
    exact hh.symm
  subst hik
  refine ⟨hkn, hpa, ?_⟩
  intro j hj
  exact hmin j j hj (List.get?_range (lt_trans hj hkn))

lemma range1_find?_some_spec (p : Nat → Bool) (n i : Nat)
    (h : (List.range' 1 n).find? p = some i) :
    1 ≤ i ∧ i ≤ n ∧ p i = true ∧ ∀ j, 1 ≤ j → j < i → p j = false := by
  obtain ⟨k, hk, hpa, hmin⟩ := list_find?_some_spec p _ _ h
  have hkn : k < n := by
    by_contra hge
    rw [List.get?_eq_none.mpr (by simpa using hge)] at hk
    exact Option.noConfusion hk
  have hik : i = 1 + k := by
    have hg : (List.range' 1 n).get? k = some (1 + k) := by
      rw [List.get?_eq_getElem?]
      simpa using List.getElem?_range' 1 1 hkn
    rw [hg] at hk
    injection hk with hh
    exact hh.symm
  subst hik
  refine ⟨by omega, by omega, hpa, ?_⟩
  intro j hj1 hji
  have hgj : (List.range' 1 n).get? (j - 1) = some j := by
    rw [List.get?_eq_getElem?]
    have hjn : j - 1 < n := by omega
    have hh := List.getElem?_range' 1 1 hjn
    have he : 1 + 1 * (j - 1) = j := by omega
    rw [he] at hh
    exact hh
  exact hmin (j - 1) j (by omega) hgj

lemma eligible_seat_ge_length (states : List (Option Craps.Game.PlayerState))
    (j : Nat) (hj : states.length ≤ j) :
    Craps.Game.eligible_seat states j = false := by
  unfold Craps.Game.eligible_seat
  rw [List.get?_eq_none.mpr hj]

/-- Claim C4 counterexample: with no target configured, a max-roll cap of 1
reached, and the only seated player holding a zero bankroll, check_stop
reports MAX_ROLLS_REACHED even though the bankroll-exhausted condition also
holds — the claim says max-rolls is evaluated last and the bankroll reason
wins. -/
theorem check_stop_order_counterexample :
    Craps.Game.Game.check_stop
      ⟨[some ⟨⟨"A", ⟨0, none⟩⟩, true⟩], ⟨none, some 1⟩, 0, 1⟩ =
      some Craps.Game.GameStopReason.MAX_ROLLS_REACHED ∧
    (Craps.Game.Game.players_with_bankroll
      ⟨[some ⟨⟨"A", ⟨0, none⟩⟩, true⟩], ⟨none, some 1⟩, 0, 1⟩).isEmpty =
      true := by
  decide

/-- Claim C4 (amended): check_stop evaluates its conditions as an ordered
first-match list in the order target-points, then max-rolls, then
no-bankroll-remaining, then all-max-win, then only-non-shooter-left —
max-rolls is tested second, directly after target points, not last. -/
theorem check_stop_first_match_priority (g : Craps.Game.Game) :
    Craps.Game.Game.check_stop g =
      Craps.Game.first_reason
        [(g.target_points_reached,
          Craps.Game.GameStopReason.TARGET_POINTS_REACHED),
         (g.max_rolls_reached, Craps.Game.GameStopReason.MAX_ROLLS_REACHED),
         (g.players_with_bankroll.isEmpty,
          Craps.Game.GameStopReason.NO_BANKROLL_REMAINING),
         (g.all_max_win_reached, Craps.Game.GameStopReason.ALL_MAX_WIN_REACHED),
         (g.only_non_shooter_left,
          Craps.Game.GameStopReason.ONLY_NON_SHOOTER_LEFT)] := by
  rfl

/-- Claim C6 counterexample: in `game.py` seat 0 holds a seated player with
can_shoot true but zero bankroll, and the initial shooter chosen is seat 1,
not the first seated can_shoot player; in `sim.py`, with no player allowed
to shoot at all, `_select_initial_shooter` returns index 0 instead of
failing fatally. -/
theorem initial_shooter_counterexample :
    Craps.Game.first_shooter_index
      [some ⟨⟨"A", ⟨0, none⟩⟩, true⟩, some ⟨⟨"B", ⟨100, none⟩⟩, true⟩] =
      some 1 ∧
    Craps.Sim.select_initial_shooter [⟨false⟩] = 0 := by
  decide

/-- Claim C6 (amended): in `game.py` the initial shooter is the first seat
whose player is seated, has bankroll, can shoot and is not at max win, and
construction raises exactly when no such seat exists; in `sim.py` the
initial shooter is the first player with can_be_shooter, and when no player
can shoot the selection falls back to index 0 without failing. -/
theorem initial_shooter_selection
    (states : List (Option Craps.Game.PlayerState))
    (players : List Craps.Sim.SimPlayer) :
    (∀ i, Craps.Game.first_shooter_index states = some i →
       Craps.Game.eligible_seat states i = true ∧
       ∀ j, j < i → Craps.Game.eligible_seat states j = false) ∧
    (Craps.Game.first_shooter_index states = none ↔
       ∀ j, Craps.Game.eligible_seat states j = false) ∧
    (∀ i, players.findIdx? (fun p => p.can_be_shooter) = some i →
       Craps.Sim.select_initial_shooter players = i ∧
       (∃ q, players.get? i = some q ∧ q.can_be_shooter = true) ∧
       ∀ j b, j < i → players.get? j = some b → b.can_be_shooter = false) ∧
    ((∀ q ∈ players, q.can_be_shooter = false) →
       Craps.Sim.select_initial_shooter players = 0) := by
  refine ⟨?_, ⟨?_, ?_⟩, ?_, ?_⟩
  · intro i h
    obtain ⟨hin, hpi, hmin⟩ :=
      range_find?_some_spec _ states.length i h
    exact ⟨hpi, hmin⟩
  · intro h j
    by_cases hj : j < states.length
    · have := List.find?_eq_none.mp h j (List.mem_range.mpr hj)
      simpa using this
    · exact eligible_seat_ge_length states j (by omega)
  · intro h
    apply List.find?_eq_none.mpr
    intro x hx
    simp only [Bool.not_eq_true]
    exact h x
  · intro i h
    obtain ⟨⟨a, ha, hpa⟩, hmin⟩ := list_findIdx?_some_spec _ players i h
    refine ⟨?_, ⟨a, ha, hpa⟩, hmin⟩
    unfold Craps.Sim.select_initial_shooter
    rw [h]
    rfl
  · intro h
    unfold Craps.Sim.select_initial_shooter
    rw [List.findIdx?_eq_none_iff.mpr (fun q hq => h q hq)]
    rfl

/-- Witness for C6 (amended): a table whose only seated player has
bankroll and can shoot selects seat 0, and a sim roster headed by a
shooter-capable player selects index 0. -/
theorem initial_shooter_selection_witness :
    (Craps.Game.eligible_seat [some ⟨⟨"B", ⟨100, none⟩⟩, true⟩] 0 = true ∧
      ∀ j, j < 0 →
        Craps.Game.eligible_seat [some ⟨⟨"B", ⟨100, none⟩⟩, true⟩] j =
          false) ∧
    Craps.Sim.select_initial_shooter [⟨true⟩] = 0 :=
  ⟨(initial_shooter_selection [some ⟨⟨"B", ⟨100, none⟩⟩, true⟩]
      [⟨true⟩]).1 0 (by decide),
   ((initial_shooter_selection [some ⟨⟨"B", ⟨100, none⟩⟩, true⟩]
      [⟨true⟩]).2.2.1 0 (by decide)).1⟩

/-- Claim C5 counterexample: from the point-on state with point 4, the roll
(1,3) makes the point — outcome WIN, not a seven-out — yet the rotation
trigger of Simulation.run fires (it rotates on every completed point
cycle), and with two shooter-capable players the shooter moves from seat 0
to seat 1; the claim says the shooter changes only on a seven-out. -/
theorem shooter_rotation_counterexample :
    Craps.Engine.apply_roll ⟨Craps.Phase.POINT_ON, some 4, 0⟩ ⟨1, 3⟩ =
      some (⟨Craps.Phase.COME_OUT, none, 1⟩,
        ⟨⟨1, 3⟩, Craps.Phase.POINT_ON, Craps.Phase.COME_OUT, some 4, none,
         Craps.Engine.PassLineOutcome.WIN, true⟩) ∧
    Craps.Sim.should_rotate
      ⟨⟨1, 3⟩, Craps.Phase.POINT_ON, Craps.Phase.COME_OUT, some 4, none,
       Craps.Engine.PassLineOutcome.WIN, true⟩ = true ∧
    Craps.Sim.advance_shooter_index [⟨true⟩, ⟨true⟩] 0 = 1 := by
  decide

/-- Claim C5 (amended): in Game.step the shooter rotation fires exactly on
a seven-out (phase_before POINT_ON, total 7, LOSS), and when it fires the
seat advances strictly in increasing order modulo 9 to the first eligible
seat; in Simulation.run, by contrast, the shooter is advanced on every
completed point cycle — a point-made win as well as a seven-out — and never
on a come-out decision. -/
theorem shooter_rotation (rr : Craps.RollResult)
    (states : List (Option Craps.Game.PlayerState)) (current : Nat) :
    (Craps.Game.should_rotate_shooter rr = true ↔
      (rr.phase_before = Craps.Phase.POINT_ON ∧ rr.roll.total = 7 ∧
        rr.pass_line_outcome = Craps.Enums.PassLineOutcome.LOSS)) ∧
    (Craps.Game.should_rotate_shooter rr = false →
      Craps.Game.step_shooter states current rr = some current) ∧
    (Craps.Game.should_rotate_shooter rr = true →
      Craps.Game.step_shooter states current rr =
        Craps.Game.next_shooter_index states current) ∧
    (∀ j, Craps.Game.next_shooter_index states current = some j →
      ∃ off, 1 ≤ off ∧ off ≤ 9 ∧ j = (current + off) % 9 ∧
        Craps.Game.eligible_seat states j = true ∧
        ∀ off2, 1 ≤ off2 → off2 < off →
          Craps.Game.eligible_seat states ((current + off2) % 9) = false) ∧
    (∀ s : Craps.Engine.State, ∀ r : Craps.Engine.Roll,
      ∀ s1 : Craps.Engine.State, ∀ res : Craps.Engine.PointCycleResult,
      Craps.Engine.apply_roll s r = some (s1, res) →
      (Craps.Sim.should_rotate res = true ↔
        (s.phase = Craps.Phase.POINT_ON ∧
          (s.point = some r.total ∨ r.total = 7)))) := by
  refine ⟨?_, ?_, ?_, ?_, ?_⟩
  · simp [Craps.Game.should_rotate_shooter, Bool.and_eq_true,
      decide_eq_true_eq, and_assoc]
  · intro h
    simp [Craps.Game.step_shooter, h]
  · intro h
    simp [Craps.Game.step_shooter, h]
  · intro j h
    unfold Craps.Game.next_shooter_index at h
    rcases hf : (List.range' 1 9).find?
        (fun off => Craps.Game.eligible_seat states ((current + off) % 9))
      with _ | off
    · rw [hf] at h
      exact absurd h (by simp)
    · rw [hf] at h
      have hj : j = (current + off) % 9 := by
        simpa using h.symm
      obtain ⟨h1, h9, hpi, hmin⟩ := range1_find?_some_spec _ 9 off hf
      subst hj
      exact ⟨off, h1, h9, rfl, hpi, fun off2 ha hb => hmin off2 ha hb⟩
  · intro s r s1 res h
    have := (Craps.Engine.apply_roll_completed_spec h).2
    simpa [Craps.Sim.should_rotate] using this

/-- Witness for C5 (amended): a concrete seven-out transition routes the
shooter update through the rotation scan. -/
theorem shooter_rotation_witness :
    Craps.Game.step_shooter
        [some ⟨⟨"B", ⟨100, none⟩⟩, true⟩, some ⟨⟨"C", ⟨100, none⟩⟩, true⟩] 0
        ⟨⟨3, 4⟩, Craps.Phase.POINT_ON, Craps.Phase.COME_OUT, some 5, none,
         Craps.Enums.PassLineOutcome.LOSS⟩ =
      Craps.Game.next_shooter_index
        [some ⟨⟨"B", ⟨100, none⟩⟩, true⟩, some ⟨⟨"C", ⟨100, none⟩⟩, true⟩]
        0 :=
  (shooter_rotation
    ⟨⟨3, 4⟩, Craps.Phase.POINT_ON, Craps.Phase.COME_OUT, some 5, none,
     Craps.Enums.PassLineOutcome.LOSS⟩
    [some ⟨⟨"B", ⟨100, none⟩⟩, true⟩, some ⟨⟨"C", ⟨100, none⟩⟩, true⟩]
    0).2.2.1 (by decide)

/-- Claim C9: the Martingale wager after k consecutive losses is
base_bet times 2 to the k, capped by max_bet and the bankroll (the bankroll
cap applied by the caller through _cap_bet), the loss streak grows by one
on a loss and resets to zero on any win, and after a win the next wager is
back to base_bet (still subject to the max_bet cap). -/
theorem martingale_progression (st : Craps.Simulate.BettingState)
    (hbase : 0 < st.base_bet) :
    (∀ m : Int, st.max_bet = some m → 0 < m → 0 < st.bankroll →
      Craps.Simulate.cap_bet (Craps.Simulate.martingale_next_bet st)
          st.bankroll =
        min (st.base_bet * 2 ^ st.consecutive_losses) (min m st.bankroll)) ∧
    (st.max_bet = none → 0 < st.bankroll →
      Craps.Simulate.cap_bet (Craps.Simulate.martingale_next_bet st)
          st.bankroll =
        min (st.base_bet * 2 ^ st.consecutive_losses) st.bankroll) ∧
    (∀ b : Int,
      (Craps.Simulate.update_betting_state st b
          Craps.Enums.PassLineOutcome.WIN).consecutive_losses = 0 ∧
      (Craps.Simulate.update_betting_state st b
          Craps.Enums.PassLineOutcome.WIN).consecutive_wins =
        st.consecutive_wins + 1 ∧
      (Craps.Simulate.update_betting_state st b
          Craps.Enums.PassLineOutcome.LOSS).consecutive_losses =
        st.consecutive_losses + 1 ∧
      (Craps.Simulate.update_betting_state st b
          Craps.Enums.PassLineOutcome.LOSS).consecutive_wins = 0) ∧
    (∀ b : Int,
      Craps.Simulate.martingale_next_bet
          (Craps.Simulate.update_betting_state st b
            Craps.Enums.PassLineOutcome.WIN) =
        (match st.max_bet with
         | some m => min st.base_bet m
         | none => st.base_bet)) := by
  have hraw : 0 < st.base_bet * 2 ^ st.consecutive_losses :=
    mul_pos hbase (pow_pos (by norm_num) _)
  refine ⟨?_, ?_, ?_, ?_⟩
  · intro m hm hmpos hbank
    unfold Craps.Simulate.martingale_next_bet
    rw [hm]
    dsimp only
    unfold Craps.Simulate.cap_bet
    rw [if_neg (not_or.mpr
      ⟨not_le.mpr (lt_min hraw hmpos), not_le.mpr hbank⟩)]
    exact min_assoc _ _ _
  · intro hm hbank
    unfold Craps.Simulate.martingale_next_bet
    rw [hm]
    dsimp only
    unfold Craps.Simulate.cap_bet
    rw [if_neg (not_or.mpr ⟨not_le.mpr hraw, not_le.mpr hbank⟩)]
  · intro b
    refine ⟨?_, ?_, ?_, ?_⟩ <;>
      simp [Craps.Simulate.update_betting_state]
  · intro b
    unfold Craps.Simulate.martingale_next_bet
      Craps.Simulate.update_betting_state
    rcases st.max_bet with _ | m <;> simp

/-- Witness for C9: base bet 5 with two consecutive losses and max bet 12
wagers min(20, min(12, 100)) — the doubled bet capped to 12. -/
theorem martingale_progression_witness :
    Craps.Simulate.cap_bet
        (Craps.Simulate.martingale_next_bet ⟨100, 5, some 12, 0, 2, none⟩)
        (100 : Int) =
      min ((5 : Int) * 2 ^ 2) (min 12 100) :=
  (martingale_progression ⟨100, 5, some 12, 0, 2, none⟩ (by norm_num)).1
    12 rfl (by norm_num) (by norm_num)

lemma stats_record_rolls_succ (c : Craps.Stats.StatsCounters)
    (rr : Craps.RollResult) :
    (c.record rr).rolls = c.rolls + 1 := by
  obtain ⟨roll, phb, pha, ptb, pta, out⟩ := rr
  unfold Craps.Stats.StatsCounters.record
  dsimp only
  cases ptb <;> cases pta <;> split_ifs <;> rfl

lemma stats_record_established_bump (c : Craps.Stats.StatsCounters)
    (rr : Craps.RollResult) (p : Int)
    (hco : rr.phase_before = Craps.Phase.COME_OUT)
    (hpush : rr.pass_line_outcome = Craps.Enums.PassLineOutcome.PUSH)
    (hpa : rr.point_after = some p) (hmem : p ∈ Craps.Stats.POINT_NUMBERS) :
    (c.record rr).point_counts.established p =
      c.point_counts.established p + 1 := by
  obtain ⟨roll, phb, pha, ptb, pta, out⟩ := rr
  dsimp only at hco hpush hpa
  subst hco
  subst hpush
  subst hpa
  unfold Craps.Stats.StatsCounters.record
  dsimp only
  rw [if_neg (by rintro ⟨hh, _⟩; exact Craps.Phase.noConfusion hh),
    if_pos ⟨rfl, rfl⟩]
  simp [Craps.Stats.PointCounts.record_established, hmem, Craps.Stats.bump]

lemma stats_record_established_unchanged (c : Craps.Stats.StatsCounters)
    (rr : Craps.RollResult)
    (hb : ¬(rr.phase_before = Craps.Phase.COME_OUT ∧
        rr.pass_line_outcome = Craps.Enums.PassLineOutcome.PUSH)) :
    (c.record rr).point_counts.established = c.point_counts.established := by
  obtain ⟨roll, phb, pha, ptb, pta, out⟩ := rr
  dsimp only at hb
  unfold Craps.Stats.StatsCounters.record
  dsimp only
  rw [if_neg hb]
  cases ptb with
  | none => split_ifs <;> rfl
  | some q =>
    split_ifs with hq
    · dsimp only
      unfold Craps.Stats.PointCounts.record_made
      split_ifs <;> rfl
    · rfl

lemma stats_record_made_bump (c : Craps.Stats.StatsCounters)
    (rr : Craps.RollResult) (p : Int)
    (hpo : rr.phase_before = Craps.Phase.POINT_ON)
    (hwin : rr.pass_line_outcome = Craps.Enums.PassLineOutcome.WIN)
    (hpb : rr.point_before = some p) (hmem : p ∈ Craps.Stats.POINT_NUMBERS) :
    (c.record rr).point_counts.made p = c.point_counts.made p + 1 := by
  obtain ⟨roll, phb, pha, ptb, pta, out⟩ := rr
  dsimp only at hpo hwin hpb
  subst hpo
  subst hwin
  subst hpb
  unfold Craps.Stats.StatsCounters.record
  dsimp only
  have hinner : ¬(Craps.Phase.POINT_ON = Craps.Phase.COME_OUT ∧
      Craps.Enums.PassLineOutcome.WIN = Craps.Enums.PassLineOutcome.PUSH) := by
    rintro ⟨hh, _⟩
    exact Craps.Phase.noConfusion hh
  have houter : Craps.Phase.POINT_ON = Craps.Phase.POINT_ON ∧
      Craps.Enums.PassLineOutcome.WIN = Craps.Enums.PassLineOutcome.WIN :=
    ⟨rfl, rfl⟩
  rw [if_neg hinner, if_pos houter]
  dsimp only
  simp [Craps.Stats.PointCounts.record_made, hmem, Craps.Stats.bump]

lemma stats_record_made_unchanged (c : Craps.Stats.StatsCounters)
    (rr : Craps.RollResult)
    (hb : ¬(rr.phase_before = Craps.Phase.POINT_ON ∧
        rr.pass_line_outcome = Craps.Enums.PassLineOutcome.WIN)) :
    (c.record rr).point_counts.made = c.point_counts.made := by
  obtain ⟨roll, phb, pha, ptb, pta, out⟩ := rr
  dsimp only at hb
  unfold Craps.Stats.StatsCounters.record
  dsimp only
  rw [if_neg hb]
  cases pta with
  | none => split_ifs <;> rfl
  | some q =>
    split_ifs with hq
    · dsimp only
      unfold Craps.Stats.PointCounts.record_established
      split_ifs <;> rfl
    · rfl

/-- Claim C7: on a recorded roll the aggregator raises when the shooter
seat is empty, and otherwise records into the overall scope, into exactly
one of the come-out or point-on scopes selected by phase_before, and into
the current shooter's and the acting seat's scoped counters (both keyed by
shooter_index), leaving every other seat's counters untouched; each scoped
record bumps the roll count; a point-established count keyed by point_after
is recorded exactly when phase_before is COME_OUT and the outcome is PUSH,
and a point-made count keyed by point_before exactly when phase_before is
POINT_ON and the outcome is WIN. -/
theorem stats_record_roll_scopes (t : Craps.Stats.TableStats)
    (rr : Craps.RollResult) (shooter_index roll_count : Nat)
    (table : Craps.Models.Table) (t1 : Craps.Stats.TableStats)
    (h : t.record_roll rr shooter_index roll_count table = some t1) :
    t1.overall = t.overall.record rr ∧
    (rr.phase_before = Craps.Phase.COME_OUT →
      t1.come_out = t.come_out.record rr ∧ t1.point_on = t.point_on) ∧
    (rr.phase_before = Craps.Phase.POINT_ON →
      t1.point_on = t.point_on.record rr ∧ t1.come_out = t.come_out) ∧
    t1.per_shooter shooter_index =
      some (((t.per_shooter shooter_index).getD
        Craps.Stats.StatsCounters.init).record rr) ∧
    (∀ j, j ≠ shooter_index → t1.per_shooter j = t.per_shooter j) ∧
    t1.per_player shooter_index =
      some (((t.per_player shooter_index).getD
        Craps.Stats.StatsCounters.init).record rr) ∧
    (∀ j, j ≠ shooter_index → t1.per_player j = t.per_player j) ∧
    (∀ c : Craps.Stats.StatsCounters, (c.record rr).rolls = c.rolls + 1) ∧
    (∀ c : Craps.Stats.StatsCounters, ∀ p : Int,
      rr.phase_before = Craps.Phase.COME_OUT →
      rr.pass_line_outcome = Craps.Enums.PassLineOutcome.PUSH →
      rr.point_after = some p → p ∈ Craps.Stats.POINT_NUMBERS →
      (c.record rr).point_counts.established p =
        c.point_counts.established p + 1) ∧
    (∀ c : Craps.Stats.StatsCounters,
      ¬(rr.phase_before = Craps.Phase.COME_OUT ∧
          rr.pass_line_outcome = Craps.Enums.PassLineOutcome.PUSH) →
      (c.record rr).point_counts.established = c.point_counts.established) ∧
    (∀ c : Craps.Stats.StatsCounters, ∀ p : Int,
      rr.phase_before = Craps.Phase.POINT_ON →
      rr.pass_line_outcome = Craps.Enums.PassLineOutcome.WIN →
      rr.point_before = some p → p ∈ Craps.Stats.POINT_NUMBERS →
      (c.record rr).point_counts.made p = c.point_counts.made p + 1) ∧
    (∀ c : Craps.Stats.StatsCounters,
      ¬(rr.phase_before = Craps.Phase.POINT_ON ∧
          rr.pass_line_outcome = Craps.Enums.PassLineOutcome.WIN) →
      (c.record rr).point_counts.made = c.point_counts.made) := by
  unfold Craps.Stats.TableStats.record_roll at h
  rcases hseat : table.seats.get? shooter_index with _ | op
  · rw [hseat] at h
    exact absurd h (by simp)
  · rcases op with _ | pl
    · rw [hseat] at h
      exact absurd h (by simp)
    · rw [hseat] at h
      dsimp only at h
      injection h with h
      subst h
      refine ⟨rfl, ?_, ?_, ?_, ?_, ?_, ?_,
        fun c => stats_record_rolls_succ c rr,
        fun c p hco hpush hpa hmem =>
          stats_record_established_bump c rr p hco hpush hpa hmem,
        fun c hb => stats_record_established_unchanged c rr hb,
        fun c p hpo hwin hpb hmem =>
          stats_record_made_bump c rr p hpo hwin hpb hmem,
        fun c hb => stats_record_made_unchanged c rr hb⟩
      · intro hco
        constructor
        · show (if rr.phase_before = Craps.Phase.COME_OUT
              then t.come_out.record rr else t.come_out) = t.come_out.record rr
          rw [if_pos hco]
        · show (if rr.phase_before = Craps.Phase.COME_OUT
              then t.point_on else t.point_on.record rr) = t.point_on
          rw [if_pos hco]
      · intro hpo
        have hnc : ¬ rr.phase_before = Craps.Phase.COME_OUT := by
          rw [hpo]
          exact fun hh => Craps.Phase.noConfusion hh
        constructor
        · show (if rr.phase_before = Craps.Phase.COME_OUT
              then t.point_on else t.point_on.record rr) = t.point_on.record rr
          rw [if_neg hnc]
        · show (if rr.phase_before = Craps.Phase.COME_OUT
              then t.come_out.record rr else t.come_out) = t.come_out
          rw [if_neg hnc]
      · show Craps.Stats.bump_scope t.per_shooter shooter_index rr
            shooter_index = _
        simp [Craps.Stats.bump_scope]
      · intro j hj
        show Craps.Stats.bump_scope t.per_shooter shooter_index rr j = _
        simp [Craps.Stats.bump_scope, hj]
      · show Craps.Stats.bump_scope t.per_player shooter_index rr
            shooter_index = _
        simp [Craps.Stats.bump_scope]
      · intro j hj
        show Craps.Stats.bump_scope t.per_player shooter_index rr j = _
        simp [Craps.Stats.bump_scope, hj]

/-- Witness for C7: a come-out PUSH that establishes the point 4 bumps the
established count for 4 in a fresh counter scope. -/
theorem stats_record_roll_scopes_witness :
    (Craps.Stats.StatsCounters.init.record
        ⟨⟨2, 2⟩, Craps.Phase.COME_OUT, Craps.Phase.POINT_ON, none, some 4,
         Craps.Enums.PassLineOutcome.PUSH⟩).point_counts.established 4 =
      Craps.Stats.StatsCounters.init.point_counts.established 4 + 1 :=
  (stats_record_roll_scopes
    ⟨Craps.Stats.StatsCounters.init, Craps.Stats.StatsCounters.init,
     Craps.Stats.StatsCounters.init, fun _ => none, fun _ => none,
     none, 0, 0⟩
    ⟨⟨2, 2⟩, Craps.Phase.COME_OUT, Craps.Phase.POINT_ON, none, some 4,
     Craps.Enums.PassLineOutcome.PUSH⟩
    0 1 ⟨[some ⟨"A", ⟨100, none⟩⟩]⟩ _
    rfl).2.2.2.2.2.2.2.2.1 Craps.Stats.StatsCounters.init 4 rfl rfl rfl
    (by decide)
